import Mathlib

/-!
Shallow embedding of the subscription pricing engine of digitaldev-studio.

The admin draft calculator (annualization, per-duration discount resolver,
manual price lock) and the checkout total-resolution chain (duration-discount
map, legacy flat-plan fallback, raw base-price fallback, promo clamp, add-on
aggregation) are translated from the TypeScript source.  JavaScript numbers
are modelled as rationals; a loosely-typed value that may fail to coerce to a
finite number is modelled as `Option ℚ` (`none` = null / undefined /
non-finite).
-/

namespace DigitalDev

/-- JavaScript Math.round on a finite number: round half toward +infinity. -/
def jsRound (q : ℚ) : ℤ := ⌊q + 1/2⌋

/-- The helper asNumber (v, fallback): a value that coerces to a finite number
yields that number, anything else yields the fallback. -/
def asNumber (v : Option ℚ) (fallback : ℚ) : ℚ := v.getD fallback

/-- The base_mode field of a website plan pricing draft. -/
inductive BaseMode where
  | monthly
  | yearly
deriving DecidableEq

/-- Per-duration config of the admin draft: WebsitePlanDurationDraft. -/
structure WebsitePlanDurationDraft where
  discount_percent : Option ℚ
  manual_price_per_year : Option ℚ
  is_manual_locked : Bool
deriving DecidableEq

/-- Admin draft entity: WebsitePlanPricingDraft, with durations keyed by
years.  A missing key is `none`. -/
structure WebsitePlanPricingDraft where
  base_mode : BaseMode
  base_price : Option ℚ
  durations : ℕ → Option WebsitePlanDurationDraft

/-- computeAnnualBase: floor the (coerced) base price, clamp below at 0, and
multiply by 12 when the base mode is monthly. -/
def computeAnnualBase (draft : WebsitePlanPricingDraft) : ℚ :=
  let base : ℚ := max 0 ((⌊asNumber draft.base_price 0⌋ : ℤ) : ℚ)
  match draft.base_mode with
  | .monthly => base * 12
  | .yearly => base

/-- computeAutoPricePerYear: clamp the duration's discount percent into
[0,100] and round the discounted annual base. -/
def computeAutoPricePerYear (draft : WebsitePlanPricingDraft) (years : ℕ) : ℚ :=
  let annualBase := computeAnnualBase draft
  let discount :=
    min 100 (max 0 (asNumber ((draft.durations years).bind
      (fun d => d.discount_percent)) 0))
  ((jsRound (annualBase * (1 - discount / 100)) : ℤ) : ℚ)

/-- shownPricePerYear for a duration bucket: the manual value when the manual
lock is on (falling back to the auto price when the manual value is null),
else the auto price. -/
def shownPricePerYear (draft : WebsitePlanPricingDraft) (years : ℕ)
    (d : WebsitePlanDurationDraft) : ℚ :=
  let autoPricePerYear := computeAutoPricePerYear draft years
  if d.is_manual_locked then
    asNumber (some (d.manual_price_per_year.getD autoPricePerYear)) autoPricePerYear
  else autoPricePerYear

/-- totalForDuration shown in the admin preview: round(shownPricePerYear * years). -/
def totalForDuration (draft : WebsitePlanPricingDraft) (years : ℕ)
    (d : WebsitePlanDurationDraft) : ℚ :=
  ((jsRound (shownPricePerYear draft years d * years) : ℤ) : ℚ)

/-- onCheckedChange of the Manual switch: toggling the lock on stores the
current manual value, falling back to the current auto price (lock-time
snapshot); toggling it off sets the manual value to null. -/
def onCheckedChange (draft : WebsitePlanPricingDraft) (years : ℕ) (v : Bool) :
    WebsitePlanPricingDraft :=
  match draft.durations years with
  | none => draft
  | some currentDur =>
    let nextLocked := v
    let nextManual : Option ℚ :=
      if nextLocked then
        some (asNumber (some (currentDur.manual_price_per_year.getD
          (computeAutoPricePerYear draft years))) 0)
      else none
    { draft with
      durations := fun y =>
        if y = years then
          some { currentDur with
                 is_manual_locked := nextLocked
                 manual_price_per_year := nextManual }
        else draft.durations y }

/-- A fetched package_durations row as the checkout page reads it.  Each field
is `Option` because the row is loosely typed: `none` stands for an absent or
non-finite value. -/
structure DurationRow where
  is_active : Option Bool
  duration_months : Option ℚ
  discount_percent : Option ℚ
deriving DecidableEq

/-- A legacy order_subscription_plans row as the checkout page reads it. -/
structure SubscriptionPlan where
  years : Option ℚ
  price_usd : Option ℚ
  is_active : Bool
deriving DecidableEq

/-- The pricing record of useOrderPublicSettings: the two base prices, null
when unavailable. -/
structure Pricing where
  domainPriceUsd : Option ℚ
  packagePriceUsd : Option ℚ
deriving DecidableEq

/-- Map.set semantics on an insertion-ordered association list: an existing
key is overwritten in place, a new key is appended. -/
def mapSet (m : List (ℚ × ℚ)) (k v : ℚ) : List (ℚ × ℚ) :=
  if m.any (fun p => p.1 = k) then
    m.map (fun p => if p.1 = k then (k, v) else p)
  else m ++ [(k, v)]

/-- Map.get on the association list built by `mapSet`. -/
def mapGet (m : List (ℚ × ℚ)) (k : ℚ) : Option ℚ :=
  (m.find? (fun p => decide (p.1 = k))).map (fun p => p.2)

/-- discountByMonths: build the months → discountPercent map from the fetched
duration rows, skipping rows whose is_active is exactly false and rows without
a positive finite duration_months. -/
def discountByMonths (durationRows : List DurationRow) : List (ℚ × ℚ) :=
  durationRows.foldl
    (fun m r =>
      if r.is_active = some false then m
      else
        let months := r.duration_months.getD 0
        let discount := r.discount_percent.getD 0
        if 0 < months then mapSet m months discount else m)
    []

/-- Modelled from the spec: computeDiscountedTotal from the lib module
packageDurations is imported by the checkout page but its source file is not
in the repository snapshot.  Per the spec, the discount percent is clamped
into [0,100] before use, a linear discount is applied uniformly per month and
summed over the given number of months, and the monetary result is rounded to
an integer amount. -/
def computeDiscountedTotal (monthlyPrice months discountPercent : ℚ) : ℚ :=
  let d := min 100 (max 0 discountPercent)
  ((jsRound (monthlyPrice * (1 - d / 100) * months) : ℤ) : ℚ)

/-- The legacy flat-plan lookup inside baseTotalUsd: the first plan whose
years field equals the requested duration, its price_usd when finite. -/
def planOverrideUsd (subscriptionPlans : List SubscriptionPlan) (y : ℚ) :
    Option ℚ :=
  match subscriptionPlans.find? (fun p => p.years = some y) with
  | some p => p.price_usd
  | none => none

/-- baseTotalUsd of the checkout page: duration-discount path when the
discount map is non-empty, else the legacy flat-plan override, else the raw
base-price path; null propagates when a required base price is null. -/
def baseTotalUsd (subscriptionYears : Option ℚ) (durationRows : List DurationRow)
    (subscriptionPlans : List SubscriptionPlan) (pricing : Pricing)
    (addOnsTotal : ℚ) : Option ℚ :=
  match subscriptionYears with
  | none => none
  | some y =>
    if y = 0 then none
    else
      let months := y * 12
      let m := discountByMonths durationRows
      let discountPercent := (mapGet m months).getD 0
      if 0 < m.length then
        match pricing.domainPriceUsd, pricing.packagePriceUsd with
        | some domain, some pkg =>
          let baseAnnual := domain + pkg
          let monthly := baseAnnual / 12
          some (computeDiscountedTotal monthly months discountPercent + addOnsTotal)
        | _, _ => none
      else
        match planOverrideUsd subscriptionPlans y with
        | some p => some (p + addOnsTotal)
        | none =>
          match pricing.domainPriceUsd, pricing.packagePriceUsd with
          | some domainUsd, some pkgUsd =>
            some ((domainUsd + pkgUsd) * y + addOnsTotal)
          | _, _ => none

/-- totalAfterPromoUsd: null propagates; an applied promo discount counts only
when positive; the result is clamped below at 0. -/
def totalAfterPromoUsd (base : Option ℚ) (appliedPromoDiscountUsd : Option ℚ) :
    Option ℚ :=
  match base with
  | none => none
  | some b =>
    let d := appliedPromoDiscountUsd.getD 0
    let discount := if 0 < d then d else 0
    some (max 0 (b - discount))

/-- totalAfterPromoIdr: round and clamp below at 0, null propagates. -/
def totalAfterPromoIdr (t : Option ℚ) : Option ℚ :=
  match t with
  | none => none
  | some v => some (max 0 ((jsRound v : ℤ) : ℚ))

/-- A subscription add-on row as fetched (the query already filters
is_active = true server-side). -/
structure SubscriptionAddOn where
  id : String
  price_idr : ℚ
  is_active : Bool
  sort_order : ℤ
deriving DecidableEq

/-- The total of useSubscriptionAddOns: sum of price_idr over the fetched
items whose id is selected. -/
def subscriptionAddOnsTotal (items : List SubscriptionAddOn)
    (selected : String → Bool) : ℚ :=
  if items.length = 0 then 0
  else items.foldl (fun sum a => if selected a.id then sum + a.price_idr else sum) 0

/-- The checkout page's addOnsTotal: package-scoped total plus
subscription-scoped total. -/
def addOnsTotal (packageAddOnsTotal subscriptionAddOnsTotalValue : ℚ) : ℚ :=
  packageAddOnsTotal + subscriptionAddOnsTotalValue

/-- A duration config with a 5 percent discount, no manual price, lock off. -/
def durFivePct : WebsitePlanDurationDraft := ⟨some 5, none, false⟩

/-- A draft with yearly base 10 and a 5 percent discount at 2 years, on which
the admin per-year rounding and the checkout whole-total rounding diverge. -/
def draftBase10 : WebsitePlanPricingDraft :=
  ⟨.yearly, some 10, fun y => if y = 2 then some durFivePct else none⟩

/-- The duration config of the spec's Scenario A: 10 percent discount. -/
def durTenPct : WebsitePlanDurationDraft := ⟨some 10, none, false⟩

/-- The draft of the spec's Scenario A: yearly base 1,200,000, 10 percent
discount at 2 years. -/
def draftScenarioA : WebsitePlanPricingDraft :=
  ⟨.yearly, some 1200000, fun y => if y = 2 then some durTenPct else none⟩

/-- A second copy of the Scenario A duration config, for the rounding
equivalence at an input where the discounted annual base is integral. -/
def durTenPctB : WebsitePlanDurationDraft := ⟨some 10, none, false⟩

/-- A second copy of the Scenario A draft, for the rounding equivalence at an
input where the discounted annual base is integral. -/
def draftScenarioB : WebsitePlanPricingDraft :=
  ⟨.yearly, some 1200000, fun y => if y = 2 then some durTenPctB else none⟩

/-- A duration config with no manual price set and the lock off. -/
def durUnlocked : WebsitePlanDurationDraft := ⟨some 0, none, false⟩

/-- A monthly-based draft holding `durUnlocked` at 1 year. -/
def draftMonthly100 : WebsitePlanPricingDraft :=
  ⟨.monthly, some 100, fun y => if y = 1 then some durUnlocked else none⟩

/-- A duration config with the manual lock on and a stored manual price. -/
def durLockedStored : WebsitePlanDurationDraft := ⟨some 0, some 123, true⟩

/-- A monthly-based draft holding `durLockedStored` at 1 year. -/
def draftLockedStored : WebsitePlanPricingDraft :=
  ⟨.monthly, some 100, fun y => if y = 1 then some durLockedStored else none⟩

/-- A monthly-based draft with fractional base price 7.5 and no durations. -/
def draftFractionalBase : WebsitePlanPricingDraft :=
  ⟨.monthly, some (15/2), fun _ => none⟩

/-- jsRound of an integer is that integer. -/
theorem jsRound_intCast (z : ℤ) : jsRound ((z : ℤ) : ℚ) = z := by
  rw [jsRound, Int.floor_int_add]
  norm_num

/-- The selected-items fold of useSubscriptionAddOns computes the accumulator
plus the sum of the selected items' prices. -/
theorem foldl_selected_sum (selected : String → Bool) :
    ∀ (items : List SubscriptionAddOn) (acc : ℚ),
      items.foldl (fun sum a => if selected a.id then sum + a.price_idr else sum) acc
        = acc + ((items.filter (fun x => selected x.id)).map
            (fun x => x.price_idr)).sum := by
  intro items
  induction items with
  | nil => intro acc; simp
  | cons a l ih =>
    intro acc
    by_cases h : selected a.id
    · simp [List.foldl_cons, h, ih, List.filter_cons]
      ring
    · simp [List.foldl_cons, h, ih, List.filter_cons]

/-- C5: the final payable amount equals max(0, subtotal - discountAmount) for
every nonnegative applied promo discount, and a discount exceeding the
subtotal yields exactly 0, never a negative amount. -/
theorem totalAfterPromoUsd_clamped (b d : ℚ) (hd : 0 ≤ d) :
    totalAfterPromoUsd (some b) (some d) = some (max 0 (b - d)) ∧
    (b < d → totalAfterPromoUsd (some b) (some d) = some 0) := by
  constructor
  · rcases lt_or_eq_of_le hd with h | h
    · simp [totalAfterPromoUsd, h]
    · simp [totalAfterPromoUsd, ← h]
  · intro hbd
    rcases lt_or_eq_of_le hd with h | h
    · have hneg : b - d ≤ 0 := by linarith
      simp [totalAfterPromoUsd, h, max_eq_left hneg]
    · have hneg : b ≤ 0 := by linarith
      simp [totalAfterPromoUsd, ← h, max_eq_left hneg]

/-- C5 witness: subtotal 100 with applied discount 130 clamps to 0. -/
theorem totalAfterPromoUsd_clamped_witness :
    totalAfterPromoUsd (some 100) (some 130) = some 0 :=
  (totalAfterPromoUsd_clamped 100 130 (by norm_num)).2 (by norm_num)

/-- C6: annualization returns floor(base) * 12 in monthly mode and
floor(base) in yearly mode for nonnegative input, and 0 for negative or
non-numeric input. -/
theorem computeAnnualBase_spec (draft : WebsitePlanPricingDraft) :
    (∀ q : ℚ, draft.base_price = some q → 0 ≤ q →
      computeAnnualBase draft =
        if draft.base_mode = BaseMode.monthly then ((⌊q⌋ : ℤ) : ℚ) * 12
        else ((⌊q⌋ : ℤ) : ℚ)) ∧
    (∀ q : ℚ, draft.base_price = some q → q < 0 → computeAnnualBase draft = 0) ∧
    (draft.base_price = none → computeAnnualBase draft = 0) := by
  refine ⟨?_, ?_, ?_⟩
  · intro q hq h0
    have hfl : (0 : ℚ) ≤ ((⌊q⌋ : ℤ) : ℚ) := by
      exact_mod_cast Int.floor_nonneg.mpr h0
    cases hbm : draft.base_mode <;>
      simp [computeAnnualBase, asNumber, hq, hbm, max_eq_right hfl]
  · intro q hq h0
    have hfl : ((⌊q⌋ : ℤ) : ℚ) ≤ 0 := by
      exact_mod_cast Int.floor_nonpos h0.le
    cases hbm : draft.base_mode <;>
      simp [computeAnnualBase, asNumber, hq, hbm, max_eq_left hfl]
  · intro hq
    cases hbm : draft.base_mode <;>
      simp [computeAnnualBase, asNumber, hq, hbm]

/-- C6 witness: monthly mode on base price 7.5 floors to 7 and annualizes to
84, exercising the nonnegative branch. -/
theorem computeAnnualBase_spec_witness :
    computeAnnualBase draftFractionalBase = 84 := by
  have h := (computeAnnualBase_spec draftFractionalBase).1 (15/2) rfl (by norm_num)
  rw [h]
  norm_num [draftFractionalBase]

/-- C8: Scenario A: annualBase 1,200,000 with a 10 percent discount yields an
auto price per year of 1,080,000 and a 2-year total of 2,160,000. -/
theorem scenarioA_totals :
    computeAutoPricePerYear draftScenarioA 2 = 1080000 ∧
    totalForDuration draftScenarioA 2 durTenPct = 2160000 := by
  constructor
  · norm_num [computeAutoPricePerYear, computeAnnualBase, asNumber, jsRound,
      draftScenarioA, durTenPct]
  · norm_num [totalForDuration, shownPricePerYear, computeAutoPricePerYear,
      computeAnnualBase, asNumber, jsRound, draftScenarioA, durTenPct]

/-- C9: with an empty duration-discount table, the legacy lookup takes the
first plan matching the requested years even when its isActive flag is false;
its price plus the add-ons total becomes the result. -/
theorem legacy_plan_ignores_is_active (addOns : ℚ) (pricing : Pricing) :
    baseTotalUsd (some 2) []
      [⟨some 2, some 500, false⟩, ⟨some 2, some 700, true⟩] pricing addOns
      = some (500 + addOns) := by
  norm_num [baseTotalUsd, discountByMonths, planOverrideUsd, mapGet, List.find?]

/-- C10: the subscription add-on total is the sum of price_idr over fetched
items whose id is selected; an empty catalog or an empty selection yields 0;
the checkout add-ons total is the package total plus the subscription total. -/
theorem subscriptionAddOnsTotal_spec (items : List SubscriptionAddOn)
    (selected : String → Bool) (a b : ℚ) :
    subscriptionAddOnsTotal items selected
      = ((items.filter (fun x => selected x.id)).map (fun x => x.price_idr)).sum ∧
    subscriptionAddOnsTotal [] selected = 0 ∧
    subscriptionAddOnsTotal items (fun _ => false) = 0 ∧
    addOnsTotal a b = a + b := by
  refine ⟨?_, by simp [subscriptionAddOnsTotal], ?_, rfl⟩
  · rcases items with _ | ⟨x, l⟩
    · simp [subscriptionAddOnsTotal]
    · by_cases hx : selected x.id <;>
        simp [subscriptionAddOnsTotal, foldl_selected_sum, List.filter_cons, hx]
  · rcases items with _ | ⟨x, l⟩
    · simp [subscriptionAddOnsTotal]
    · simp [subscriptionAddOnsTotal, foldl_selected_sum, List.filter_cons]

/-- C1: when the discount map holds a row for the requested duration, the
legacy flat-plan table has no influence on the computed total: any two plan
tables give the same result. -/
theorem baseTotalUsd_ignores_plans_when_duration_row (y dv : ℚ)
    (rows : List DurationRow) (plans1 plans2 : List SubscriptionPlan)
    (pricing : Pricing) (addOns : ℚ)
    (hrow : mapGet (discountByMonths rows) (y * 12) = some dv) :
    baseTotalUsd (some y) rows plans1 pricing addOns
      = baseTotalUsd (some y) rows plans2 pricing addOns := by
  have hlen : 0 < (discountByMonths rows).length := by
    rcases hfind : (discountByMonths rows).find? (fun p => decide (p.1 = y * 12)) with
      _ | p
    · rw [mapGet, hfind] at hrow
      simp at hrow
    · exact List.length_pos.mpr (List.ne_nil_of_mem (List.mem_of_find?_eq_some hfind))
  by_cases hy : y = 0
  · simp [baseTotalUsd, hy]
  · simp [baseTotalUsd, hy, hlen]

/-- C1 witness: with a 12-month discount row present, an empty plan table and
a populated plan table with a different price give the same total. -/
theorem baseTotalUsd_ignores_plans_witness :
    baseTotalUsd (some 1) [⟨none, some 12, some 10⟩] [] ⟨some 10, some 20⟩ 5
      = baseTotalUsd (some 1) [⟨none, some 12, some 10⟩]
          [⟨some 1, some 999, true⟩] ⟨some 10, some 20⟩ 5 :=
  baseTotalUsd_ignores_plans_when_duration_row 1 10 [⟨none, some 12, some 10⟩]
    [] [⟨some 1, some 999, true⟩] ⟨some 10, some 20⟩ 5
    (by norm_num [discountByMonths, mapGet, mapSet, List.find?])

/-- C2: on the duration-discount path or the raw base-price path, a null base
price makes the whole resolution null, never 0. -/
theorem baseTotalUsd_null_base_propagates (y : ℚ) (rows : List DurationRow)
    (plans : List SubscriptionPlan) (pricing : Pricing) (addOns : ℚ)
    (hbase : pricing.domainPriceUsd = none ∨ pricing.packagePriceUsd = none)
    (hpath : 0 < (discountByMonths rows).length ∨ planOverrideUsd plans y = none) :
    baseTotalUsd (some y) rows plans pricing addOns = none := by
  by_cases hy : y = 0
  · simp [baseTotalUsd, hy]
  · by_cases hm : 0 < (discountByMonths rows).length
    · rcases hbase with h | h <;>
        cases hdp : pricing.domainPriceUsd <;> cases hpp : pricing.packagePriceUsd <;>
        simp_all [baseTotalUsd]
    · have hp : planOverrideUsd plans y = none := hpath.resolve_left hm
      rcases hbase with h | h <;>
        cases hdp : pricing.domainPriceUsd <;> cases hpp : pricing.packagePriceUsd <;>
        simp_all [baseTotalUsd]

/-- C2 witness: Scenario C: both base prices null, empty duration-discount
table, no matching legacy plan; the result is null, not 0. -/
theorem baseTotalUsd_null_base_witness :
    baseTotalUsd (some 3) [] [] ⟨none, none⟩ 0 = none :=
  baseTotalUsd_null_base_propagates 3 [] [] ⟨none, none⟩ 0 (Or.inl rfl)
    (Or.inr rfl)

/-- C4 counterexample: a non-empty duration-discount table consisting of one
inactive row does not activate the duration-discount path: with both base
prices null (so the duration path would report unavailable), the result is
the legacy plan's price, so the legacy path was used. -/
theorem nonempty_table_not_duration_path :
    ([⟨some false, some 12, some 10⟩] : List DurationRow) ≠ [] ∧
    discountByMonths [⟨some false, some 12, some 10⟩] = [] ∧
    baseTotalUsd (some 1) [⟨some false, some 12, some 10⟩]
      [⟨some 1, some 5, true⟩] ⟨none, none⟩ 0 = some 5 := by
  refine ⟨by simp, by norm_num [discountByMonths], ?_⟩
  norm_num [baseTotalUsd, discountByMonths, planOverrideUsd, mapGet, List.find?]

/-- C4 amended: the duration-discount path is taken exactly when the derived
discount map is non-empty, i.e. when at least one row has is_active not equal
to false and a positive finite duration_months; on that path the discount
percent defaults to 0 when no map entry matches durationYears * 12, and the
legacy-plan table is not consulted. -/
theorem duration_path_iff_map_nonempty (y : ℚ) (rows : List DurationRow)
    (plans : List SubscriptionPlan) (pricing : Pricing) (addOns : ℚ)
    (hy : y ≠ 0) (hm : discountByMonths rows ≠ []) :
    baseTotalUsd (some y) rows plans pricing addOns
      = match pricing.domainPriceUsd, pricing.packagePriceUsd with
        | some domain, some pkg =>
          some (computeDiscountedTotal ((domain + pkg) / 12) (y * 12)
            ((mapGet (discountByMonths rows) (y * 12)).getD 0) + addOns)
        | _, _ => none := by
  have hlen : 0 < (discountByMonths rows).length := List.length_pos.mpr hm
  cases hdp : pricing.domainPriceUsd <;> cases hpp : pricing.packagePriceUsd <;>
    simp [baseTotalUsd, hy, hlen, hdp, hpp]

/-- C4 witness: a single active 24-month row with a 20 percent discount routes
a 2-year request through the duration-discount path. -/
theorem duration_path_iff_map_nonempty_witness :
    baseTotalUsd (some 2) [⟨none, some 24, some 20⟩] [⟨some 2, some 111, true⟩]
      ⟨some 5, some 7⟩ 3 = some 22 := by
  have h := duration_path_iff_map_nonempty 2 [⟨none, some 24, some 20⟩]
    [⟨some 2, some 111, true⟩] ⟨some 5, some 7⟩ 3 (by norm_num)
    (by simp [discountByMonths, mapSet])
  rw [h]
  norm_num [discountByMonths, mapGet, mapSet, List.find?, computeDiscountedTotal,
    jsRound]

/-- C3 counterexample: on annual base 10, discount 5 percent, 2 years, the
admin draft calculator (round per year, then multiply) gives 20, while the
checkout duration-discount formula over 24 months (round the whole product)
gives 19. -/
theorem admin_checkout_rounding_mismatch :
    totalForDuration draftBase10 2 durFivePct = 20 ∧
    computeDiscountedTotal (computeAnnualBase draftBase10 / 12) ((2 : ℕ) * 12) 5
      = 19 ∧
    totalForDuration draftBase10 2 durFivePct
      ≠ computeDiscountedTotal (computeAnnualBase draftBase10 / 12)
          ((2 : ℕ) * 12) 5 := by
  refine ⟨?_, ?_, ?_⟩
  · norm_num [totalForDuration, shownPricePerYear, computeAutoPricePerYear,
      computeAnnualBase, asNumber, jsRound, draftBase10, durFivePct]
  · norm_num [computeDiscountedTotal, computeAnnualBase, asNumber, jsRound,
      draftBase10]
  · norm_num [totalForDuration, shownPricePerYear, computeAutoPricePerYear,
      computeDiscountedTotal, computeAnnualBase, asNumber, jsRound,
      draftBase10, durFivePct]

/-- C3 amended: the admin draft total and the checkout duration-discount
subtotal agree whenever the discounted annual base is an integer (then
neither rounding step loses anything); in general the two can differ because
the admin path rounds the per-year price before multiplying by the years
while the checkout path rounds the whole product. -/
theorem admin_checkout_agree_on_integral (draft : WebsitePlanPricingDraft)
    (years : ℕ) (dur : WebsitePlanDurationDraft) (d : ℚ) (k : ℤ)
    (hdur : draft.durations years = some dur)
    (hdp : dur.discount_percent = some d)
    (hlock : dur.is_manual_locked = false)
    (hint : computeAnnualBase draft * (1 - min 100 (max 0 d) / 100) = (k : ℚ)) :
    totalForDuration draft years dur
      = computeDiscountedTotal (computeAnnualBase draft / 12) ((years : ℚ) * 12) d := by
  have hauto : computeAutoPricePerYear draft years = ((k : ℤ) : ℚ) := by
    simp only [computeAutoPricePerYear, hdur, Option.some_bind, hdp, asNumber,
      Option.getD_some, hint, jsRound_intCast]
  have hshown : shownPricePerYear draft years dur = ((k : ℤ) : ℚ) := by
    simp [shownPricePerYear, hlock, hauto]
  have harg : computeAnnualBase draft / 12 * (1 - min 100 (max 0 d) / 100)
      * ((years : ℚ) * 12) = (((k * (years : ℤ)) : ℤ) : ℚ) := by
    have hr : computeAnnualBase draft / 12 * (1 - min 100 (max 0 d) / 100)
        * ((years : ℚ) * 12)
        = computeAnnualBase draft * (1 - min 100 (max 0 d) / 100) * (years : ℚ) := by
      ring
    rw [hr, hint]
    push_cast
    ring
  have hky : ((k : ℤ) : ℚ) * ((years : ℕ) : ℚ) = (((k * (years : ℤ)) : ℤ) : ℚ) := by
    push_cast
    ring
  simp only [totalForDuration, computeDiscountedTotal, hshown, harg, hky,
    jsRound_intCast]

/-- C3 witness: on Scenario A's numbers (annual base 1,200,000, 10 percent
discount, 2 years) the discounted annual base is the integer 1,080,000 and
both calculators give the same total. -/
theorem admin_checkout_agree_witness :
    totalForDuration draftScenarioB 2 durTenPctB
      = computeDiscountedTotal (computeAnnualBase draftScenarioB / 12)
          ((2 : ℕ) * 12) 10 := by
  have h := admin_checkout_agree_on_integral draftScenarioB 2 durTenPctB 10
    1080000 (by norm_num [draftScenarioB, durTenPctB]) rfl rfl
    (by norm_num [computeAnnualBase, asNumber, draftScenarioB])
  simpa using h

/-- C7: toggling the manual lock on with the manual price unset snapshots the
current auto price as the manual value; toggling it off resets the manual
value to null; while locked, the shown price is the manual value, falling
back to the auto price when the manual value is null. -/
theorem manual_lock_snapshot (draft : WebsitePlanPricingDraft) (years : ℕ)
    (dur : WebsitePlanDurationDraft)
    (hdur : draft.durations years = some dur) :
    (dur.manual_price_per_year = none →
      (onCheckedChange draft years true).durations years =
        some { dur with
               is_manual_locked := true,
               manual_price_per_year := some (computeAutoPricePerYear draft years) }) ∧
    ((onCheckedChange draft years false).durations years =
      some { dur with
             is_manual_locked := false,
             manual_price_per_year := none }) ∧
    (dur.manual_price_per_year = none →
      shownPricePerYear draft years { dur with is_manual_locked := true }
        = computeAutoPricePerYear draft years) ∧
    (∀ m : ℚ, shownPricePerYear draft years
      { dur with is_manual_locked := true, manual_price_per_year := some m } = m) := by
  refine ⟨?_, ?_, ?_, ?_⟩
  · intro hunset
    simp [onCheckedChange, hdur, hunset, asNumber]
  · simp [onCheckedChange, hdur]
  · intro hunset
    simp [shownPricePerYear, hunset, asNumber]
  · intro m
    simp [shownPricePerYear, asNumber]

/-- C7 witness: locking the 1-year bucket of a draft with no manual price set
stores the auto price as the manual value, and unlocking a bucket whose
stored manual price is 123 discards that value back to null. -/
theorem manual_lock_snapshot_witness :
    ((onCheckedChange draftMonthly100 1 true).durations 1 =
      some { durUnlocked with
             is_manual_locked := true,
             manual_price_per_year := some (computeAutoPricePerYear draftMonthly100 1) }) ∧
    ((onCheckedChange draftLockedStored 1 false).durations 1 =
      some { durLockedStored with
             is_manual_locked := false,
             manual_price_per_year := none }) :=
  ⟨(manual_lock_snapshot draftMonthly100 1 durUnlocked rfl).1 rfl,
   (manual_lock_snapshot draftLockedStored 1 durLockedStored rfl).2.1⟩

end DigitalDev
